import Mathlib

/-
  Verification of the device-control core of a remote hardware test server
  (a Python program, src/server.py).

  The embedding is shallow: the OS state touched by the program (the sysfs
  GPIO tree, network-interface address lists, the TFTP staging directory)
  is modelled as explicit pure state, and each Python function becomes a
  Lean function threading that state.  Fallible Python functions returning
  values of the result library become functions into `Result`; functions
  that can also raise an uncaught exception return `PyOutcome`, which has a
  third constructor for a propagated exception.  Side effects that the
  claims observe (writes to GPIO value files, scheduler suspensions) are
  recorded in an event trace.
-/

set_option autoImplicit false

namespace RTF

/-- The result type of the Python result library: Ok / Err. -/
inductive Result (α : Type) (ε : Type) where
  | ok : α → Result α ε
  | err : ε → Result α ε
deriving Repr, DecidableEq

def Result.isErr {α ε : Type} : Result α ε → Bool
  | .ok _ => false
  | .err _ => true

def Result.isOk {α ε : Type} : Result α ε → Bool
  | .ok _ => true
  | .err _ => false

/-- Outcome of a Python call that may also raise an uncaught exception:
    `ok` / `err` are the returned Ok / Err results, `raised` is an exception
    propagating out of the function. -/
inductive PyOutcome (α : Type) where
  | ok : α → PyOutcome α
  | err : String → PyOutcome α
  | raised : String → PyOutcome α
deriving Repr, DecidableEq

def PyOutcome.isErrOutcome {α : Type} : PyOutcome α → Bool
  | .ok _ => false
  | .err _ => true
  | .raised _ => false

def PyOutcome.isRaised {α : Type} : PyOutcome α → Bool
  | .ok _ => false
  | .err _ => false
  | .raised _ => true

/-- First-match association-list lookup, as a finite map. -/
def alistFind {κ β : Type} [BEq κ] (k : κ) : List (κ × β) → Option β
  | [] => none
  | p :: ps => if p.1 == k then some p.2 else alistFind k ps

/-- Replace the value stored under key `k` (all occurrences), keeping order. -/
def alistUpdate {κ β : Type} [BEq κ] (k : κ) (v : β) (xs : List (κ × β)) :
    List (κ × β) :=
  xs.map (fun p => if p.1 == k then (k, v) else p)

theorem alistFind_update {κ β : Type} [BEq κ] [LawfulBEq κ]
    (xs : List (κ × β)) (k : κ) (v : β) (h : (alistFind k xs).isSome = true) :
    alistFind k (alistUpdate k v xs) = some v := by
  induction xs with
  | nil => simp [alistFind] at h
  | cons p ps ih =>
    by_cases hk : p.1 == k
    · simp [alistUpdate, alistFind, hk]
    · simp only [alistFind, hk, if_false] at h
      simpa [alistUpdate, alistFind, hk] using ih h

theorem alistFind_update_isSome {κ β : Type} [BEq κ] [LawfulBEq κ]
    (xs : List (κ × β)) (k : κ) (v : β) (h : (alistFind k xs).isSome = true) :
    (alistFind k (alistUpdate k v xs)).isSome = true := by
  rw [alistFind_update xs k v h]; rfl

/- ----------------------------------------------------------------
   Python string helpers: str.strip() and int(...) parsing.
   ---------------------------------------------------------------- -/

def isPyWhitespace (c : Char) : Bool :=
  c == ' ' || c == '\t' || c == '\n' || c == '\r'

def dropLeadingWS : List Char → List Char
  | [] => []
  | c :: cs => if isPyWhitespace c then dropLeadingWS cs else c :: cs

/-- Characters of a Python string after str.strip(). -/
def stripData (s : String) : List Char :=
  (dropLeadingWS ((dropLeadingWS s.data).reverse)).reverse

/-- str.strip() as a String. -/
def pyStrip (s : String) : String :=
  String.mk (stripData s)

def isDigitChar (c : Char) : Bool :=
  48 ≤ c.toNat && c.toNat ≤ 57

def digitVal (c : Char) : Nat := c.toNat - 48

def digitsToNat (l : List Char) : Nat :=
  l.foldl (fun a c => a * 10 + digitVal c) 0

/-- Parse a nonempty all-digit character list, else fail. -/
def parseNatChars (l : List Char) : Option Nat :=
  if l ≠ [] ∧ l.all isDigitChar then some (digitsToNat l) else none

/-- Python int(s) on a stripped string: optional sign then digits,
    None modelling a raised ValueError. -/
def pyInt (s : String) : Option Int :=
  match stripData s with
  | [] => none
  | c :: cs =>
    if c == '-' then (parseNatChars cs).map (fun n => -(n : Int))
    else if c == '+' then (parseNatChars cs).map (fun n => (n : Int))
    else (parseNatChars (c :: cs)).map (fun n => (n : Int))

/- ----------------------------------------------------------------
   The sysfs GPIO tree (the state behind /sys/class/gpio).

   Each exported line holds the contents of its direction file, its
   active_low flag and the content of its value file.  The kernel keeps
   read and write of the value file both polarity-adjusted, so writing a
   logical value and reading it back round-trips regardless of active_low;
   toggling active_low inverts the reported value in place, and writing
   "out" to direction drives the physical line low, which reads back as
   the current active_low flag.
   ---------------------------------------------------------------- -/

structure GpioLine where
  direction : String
  activeLow : Bool
  valueContent : String
deriving Repr, DecidableEq

structure Sysfs where
  exportFilePresent : Bool
  lines : List (Nat × GpioLine)
deriving Repr, DecidableEq

def sysfsFind (st : Sysfs) (gpio : Nat) : Option GpioLine :=
  alistFind gpio st.lines

def sysfsUpdate (st : Sysfs) (gpio : Nat) (l : GpioLine) : Sysfs :=
  { st with lines := alistUpdate gpio l st.lines }

/-- A freshly exported line: input, normal polarity, reading 0. -/
def freshLine : GpioLine :=
  { direction := "in", activeLow := false, valueContent := "0" }

/-- Kernel handling of a write to /sys/class/gpio/export: the content must
    parse as a line number (kstrtol); an unparsable string or an already
    exported line is rejected and changes nothing. -/
def sysfsExportWrite (st : Sysfs) (content : String) : Sysfs :=
  match parseNatChars (stripData content) with
  | none => st
  | some n =>
    match sysfsFind st n with
    | some _ => st
    | none => { st with lines := st.lines ++ [(n, freshLine)] }

/-- Observable effects of device operations: a write of an integer to a
    value file of a GPIO line, or a scheduler suspension in seconds. -/
inductive Event where
  | writeValue : Nat → Int → Event
  | sleep : Nat → Event
deriving Repr, DecidableEq

/-- The GPIO line a trace event touches, if any. -/
def Event.gpioOf : Event → Option Nat
  | .writeValue g _ => some g
  | .sleep _ => none

/- ----------------------------------------------------------------
   GPIO driver (gpio_prepare_output, gpio_set_value, gpio_get_value
   of src/server.py).
   ---------------------------------------------------------------- -/

/-- gpio_set_value: writes 0/1 to the value file of an exported line,
    Err if the per-line directory is absent.  Returns the result, the new
    sysfs state and the trace of value-file writes. -/
def gpio_set_value (st : Sysfs) (gpio : Nat) (value : Int) :
    Result Unit String × Sysfs × List Event :=
  match sysfsFind st gpio with
  | none => (.err ("GPIO " ++ toString gpio ++ " not exported"), st, [])
  | some line =>
    let newContent := if value == 0 then "0" else "1"
    (.ok (), sysfsUpdate st gpio { line with valueContent := newContent },
      [Event.writeValue gpio value])

/-- gpio_get_value: reads and int()-parses the value file; Err if the line
    is not exported; a non-integer content makes int() raise a ValueError
    that the source does not catch, modelled by the raised outcome. -/
def gpio_get_value (st : Sysfs) (gpio : Nat) : PyOutcome Int :=
  match sysfsFind st gpio with
  | none => .err ("GPIO " ++ toString gpio ++ " not exported")
  | some line =>
    match pyInt line.valueContent with
    | some n => .ok n
    | none => .raised ("ValueError: invalid literal for int: " ++ line.valueContent)

/-- The part of gpio_prepare_output after the export block (source lines
    140-158): fail when the per-line directory is still absent, write "out"
    to the direction file and read it back, write the polarity flag to the
    active_low file and read the value file back, requiring it to equal the
    flag.  The state st1 is sysfs after the export block and writes holds
    the strings written to the export control file so far. -/
def gpio_prepare_after_export (st1 : Sysfs) (writes : List String)
    (gpio : Nat) (active_low : Bool) (gpio_name : String) :
    Result Unit String × Sysfs × List String :=
  match sysfsFind st1 gpio with
  | none =>
    (.err (gpio_name ++ " gpio " ++ toString gpio ++ " could not be exported."),
      st1, writes)
  | some line0 =>
    let line1 : GpioLine :=
      { line0 with direction := "out",
                   valueContent := if line0.activeLow then "1" else "0" }
    let st2 := sysfsUpdate st1 gpio line1
    if pyStrip line1.direction ≠ "out" then
      (.err (gpio_name ++ " gpio " ++ toString gpio ++
        " could not be set to output mode."), st2, writes)
    else
      let flagContent := if active_low then "1" else "0"
      let line2 : GpioLine :=
        { line1 with activeLow := active_low,
                     valueContent :=
                       if active_low == line1.activeLow then line1.valueContent
                       else if pyStrip line1.valueContent == "0" then "1"
                       else "0" }
      let st3 := sysfsUpdate st2 gpio line2
      if pyStrip line2.valueContent ≠ flagContent then
        (.err ("active_low state for " ++ gpio_name ++ " gpio " ++
          toString gpio ++ " could not be set."), st3, writes)
      else
        (.ok (), st3, writes)

/-- gpio_prepare_output of src/server.py.  Faithful to the source, the
    string written to the export control file is the full sysfs path of the
    line, not its number.  The third component records the strings written
    to the export file. -/
def gpio_prepare_output (st : Sysfs) (gpio : Nat) (active_low : Bool)
    (gpio_name : String) : Result Unit String × Sysfs × List String :=
  if st.exportFilePresent = false then
    (.err "GPIO export file not found", st, [])
  else
    gpio_prepare_after_export
      (if (sysfsFind st gpio).isSome then st
       else sysfsExportWrite st ("/sys/class/gpio/gpio" ++ toString gpio ++ "\n"))
      (if (sysfsFind st gpio).isSome then []
       else ["/sys/class/gpio/gpio" ++ toString gpio ++ "\n"])
      gpio active_low gpio_name

/- ----------------------------------------------------------------
   Device abstraction (class Device1 of src/server.py).
   ---------------------------------------------------------------- -/

structure Device1 where
  name : String
  power_gpio : Nat
  reset_gpio : Nat
  tftp_filename : String
  power_gpio_inverted : Bool
  reset_gpio_inverted : Bool
deriving Repr, DecidableEq

/-- Device1.prepare: prepare the power line, and only on success the reset
    line (the source returns the first failure). -/
def Device1.prepare (d : Device1) (st : Sysfs) : Result Unit String × Sysfs :=
  match gpio_prepare_output st d.power_gpio d.power_gpio_inverted "Power" with
  | (.err e, st1, _) => (.err e, st1)
  | (.ok _, st1, _) =>
    match gpio_prepare_output st1 d.reset_gpio d.reset_gpio_inverted "Reset" with
    | (r, st2, _) => (r, st2)

def Device1.power_off (d : Device1) (st : Sysfs) :
    Result Unit String × Sysfs × List Event :=
  gpio_set_value st d.power_gpio 0

def Device1.power_on (d : Device1) (st : Sysfs) :
    Result Unit String × Sysfs × List Event :=
  gpio_set_value st d.power_gpio 1

/-- Device1.is_powered_on: read the power line and map equality with 1. -/
def Device1.is_powered_on (d : Device1) (st : Sysfs) : PyOutcome Bool :=
  match gpio_get_value st d.power_gpio with
  | .ok n => .ok (n == 1)
  | .err e => .err e
  | .raised e => .raised e

/-- Device1.power_cycle: power_off; on failure return it at once; otherwise
    suspend one second (asyncio.sleep(1), recorded as a trace event) and
    power_on. -/
def Device1.power_cycle (d : Device1) (st : Sysfs) :
    Result Unit String × Sysfs × List Event :=
  match d.power_off st with
  | (.err e, st1, t1) => (.err e, st1, t1)
  | (.ok _, st1, t1) =>
    match d.power_on st1 with
    | (r, st2, t2) => (r, st2, t1 ++ [Event.sleep 1] ++ t2)

def Device1.reset_button_push (d : Device1) (st : Sysfs) :
    Result Unit String × Sysfs × List Event :=
  gpio_set_value st d.reset_gpio 1

def Device1.reset_button_release (d : Device1) (st : Sysfs) :
    Result Unit String × Sysfs × List Event :=
  gpio_set_value st d.reset_gpio 0

/-- Modelled from the spec: reset_pulse(duration) is not present in
    src/server.py (the revision in src only has reset_button_push and
    reset_button_release); the spec describes it as: assert reset, suspend
    for the duration, release reset, skipping the release and returning the
    failure when the assert fails.  Built from the two source reset
    operations. -/
def Device1.reset_pulse (d : Device1) (st : Sysfs) (duration : Nat) :
    Result Unit String × Sysfs × List Event :=
  match d.reset_button_push st with
  | (.err e, st1, t1) => (.err e, st1, t1)
  | (.ok _, st1, t1) =>
    match d.reset_button_release st1 with
    | (r, st2, t2) => (r, st2, t1 ++ [Event.sleep duration] ++ t2)

/-- The device registry entry built at startup of src/server.py. -/
def dev1 : Device1 :=
  { name := "device1"
    power_gpio := 539
    reset_gpio := 529
    reset_gpio_inverted := true
    power_gpio_inverted := true
    tftp_filename := "wr1043v3_tp_recovery.bin" }

/-- The device registry: a single device named device1. -/
def devices : List (String × Device1) := [("device1", dev1)]

/- ----------------------------------------------------------------
   Network interface configurator (iface_set_static_ip).

   The state holds, per interface name, the list of assigned addresses,
   plus whether the process runs with root rights.  flush_addr empties the
   list, addr add appends; both need root and raise PermissionError
   otherwise, which the source catches and reports.
   ---------------------------------------------------------------- -/

structure NetState where
  root : Bool
  ifaces : List (String × List String)
deriving Repr, DecidableEq

def netFind (st : NetState) (interface : String) : Option (List String) :=
  alistFind interface st.ifaces

def netUpdate (st : NetState) (interface : String) (addrs : List String) :
    NetState :=
  { st with ifaces := alistUpdate interface addrs st.ifaces }

/-- iface_set_static_ip of src/server.py: look the interface up (IndexError
    when absent becomes a not-found Err), flush all addresses and verify the
    flush by re-reading, add the requested address and verify it is present
    on re-read; without root the first mutating call raises PermissionError,
    caught and reported. -/
def iface_set_static_ip (st : NetState) (interface : String)
    (ip_address : String) (mask : Nat) : Result Unit String × NetState :=
  match netFind st interface with
  | none => (.err ("Iface " ++ interface ++ " not found."), st)
  | some _ =>
    if st.root = false then
      (.err ("Root rights are necessary to set ip on iface " ++ interface ++ "."),
        st)
    else
      let st1 := netUpdate st interface []
      let addresses := (netFind st1 interface).getD []
      if addresses.length > 0 then
        (.err ("Failed to flush IP addresses from iface " ++ interface), st1)
      else
        let _ := mask
        let st2 := netUpdate st1 interface (addresses ++ [ip_address])
        let assigned_ips := (netFind st2 interface).getD []
        if ip_address ∈ assigned_ips then (.ok (), st2)
        else
          (.err ("Tried to add IP " ++ ip_address ++ " to iface " ++ interface ++
            ", but it was not there afterwards."), st2)

/- ----------------------------------------------------------------
   Process supervisor (ser2net_cmd, ser2net_start, dnsmasq_tftp_start).
   ---------------------------------------------------------------- -/

/-- The parts of the OS that ser2net_cmd and ser2net_start observe:
    shutil.which("ser2net"), os.path.isfile("/usr/sbin/ser2net"), and
    whether the spawned child exits within the 500 ms grace window. -/
structure ExecEnv where
  whichSer2net : Option String
  usrSbinSer2netExists : Bool
  exitsWithin500ms : Bool
deriving Repr, DecidableEq

structure ProcessHandle where
  cmd : List String
deriving Repr, DecidableEq

def ser2netArgs (bin tty_path : String) (speed port : Nat) : List String :=
  [bin, "-d", "-n",
   "-Y", "connection: &con01#  accepter: telnet(rfc2217,mode=server),tcp," ++
     toString port,
   "-Y", "  connector: serialdev(nouucplock=true)," ++ tty_path ++ "," ++
     toString speed ++ "n81,local",
   "-Y", "  options:",
   "-Y", "    max-connections: 10"]

/-- ser2net_cmd: locate the binary via shutil.which, fall back to
    /usr/sbin/ser2net, Err when absent; on success the argument vector. -/
def ser2net_cmd (env : ExecEnv) (tty_path : String) (speed port : Nat) :
    Result (List String) String :=
  match env.whichSer2net with
  | some bin => .ok (ser2netArgs bin tty_path speed port)
  | none =>
    if env.usrSbinSer2netExists then
      .ok (ser2netArgs "/usr/sbin/ser2net" tty_path speed port)
    else
      .err "ser2net binary not found"

/-- ser2net_start of src/server.py.  When ser2net_cmd returns an Err, the
    source executes a raise statement on the Err value: since the Err class
    of the result library is not an exception class, Python raises a
    TypeError, so the call raises instead of returning the Err.  In the
    early-exit branch the source builds its message from an index access on
    the Result wrapper (not on the unwrapped list), which is not
    subscriptable and raises a TypeError before the Err is built. -/
def ser2net_start (env : ExecEnv) (tty_path : String) (speed port : Nat) :
    PyOutcome ProcessHandle :=
  match ser2net_cmd env tty_path speed port with
  | .err _ => .raised "TypeError: exceptions must derive from BaseException"
  | .ok cmdv =>
    if env.exitsWithin500ms then
      .raised "TypeError: Err object is not subscriptable"
    else
      .ok { cmd := cmdv }

structure TFTPInstance where
  iface : String
  tftp_dir : String
deriving Repr, DecidableEq

def dnsmasq_tftp_command (iface tmp_dir : String) : List String :=
  ["dnsmasq", "--no-daemon", "--port=0", "--interface=" ++ iface,
   "--enable-tftp", "--tftp-root=" ++ tmp_dir]

/-- The parts of the OS dnsmasq_tftp_start observes: the random temp dir
    name picked by tempfile.mkdtemp and whether the child exits within the
    500 ms grace window. -/
structure DnsmasqEnv where
  tmpDirName : String
  exitsWithin500ms : Bool
deriving Repr, DecidableEq

/-- dnsmasq_tftp_start: create the staging temp dir, spawn dnsmasq, Err
    when it exits within the grace window, otherwise the instance. -/
def dnsmasq_tftp_start (env : DnsmasqEnv) (iface : String) :
    PyOutcome TFTPInstance :=
  if env.exitsWithin500ms then
    .err ("dnsmasq for " ++ iface ++ " exited immediately")
  else
    .ok { iface := iface, tftp_dir := env.tmpDirName }

/- ----------------------------------------------------------------
   Firmware staging (tftp_provide_file) and the flash route
   (device_flash).
   ---------------------------------------------------------------- -/

/-- The staging directory as filename-to-bytes entries. -/
abbrev StagingDir : Type := List (String × List Nat)

/-- Writing a file with open(..., "wb"): overwrite when present, create
    otherwise. -/
def fsWrite (dir : StagingDir) (filename : String) (content : List Nat) :
    StagingDir :=
  if (alistFind filename dir).isSome then alistUpdate filename content dir
  else dir ++ [(filename, content)]

/-- tftp_provide_file: write the bytes under the filename in the staging
    dir; the source always returns Ok. -/
def tftp_provide_file (dir : StagingDir) (filename : String)
    (content : List Nat) : Result Unit String × StagingDir :=
  (.ok (), fsWrite dir filename content)

inductive HttpResponse where
  | ok : String → HttpResponse
  | httpError : Nat → String → HttpResponse
deriving Repr, DecidableEq

/-- The firmware-staging route (device_flash): resolve the device (404 when
    unknown), download from the URL (a 500 with the error and no staging
    write on failure — the download outcome is passed in, the network being
    external), then write the bytes under the fixed tftp filename of the device
    in the staging dir. -/
def device_flash (registry : List (String × Device1)) (device_name : String)
    (download : Result (List Nat) String) (dir : StagingDir) :
    HttpResponse × StagingDir :=
  match alistFind device_name registry with
  | none => (.httpError 404 "Device not found", dir)
  | some d =>
    match download with
    | .err e => (.httpError 500 e, dir)
    | .ok content =>
      match tftp_provide_file dir d.tftp_filename content with
      | (.err e, dir1) => (.httpError 500 e, dir1)
      | (.ok _, dir1) => (.ok "ok", dir1)

/- ----------------------------------------------------------------
   Startup sequence of src/server.py (module level): prepare every
   registered device, exit(1) on any failure; then configure the boot
   interface, exit(1) on failure; only then are the HTTP routes served.
   ---------------------------------------------------------------- -/

inductive StartupOutcome where
  | exitCode : Nat → StartupOutcome
  | serving : StartupOutcome
deriving Repr, DecidableEq

/-- Run prepare over the registry, threading sysfs state and recording
    whether any device failed (device_init_failed in the source). -/
def prepareAll (registry : List (String × Device1)) (st : Sysfs) :
    Bool × Sysfs :=
  match registry with
  | [] => (false, st)
  | (_, d) :: rest =>
    let r := d.prepare st
    let tail := prepareAll rest r.2
    ((r.1.isErr || tail.1), tail.2)

/-- The module-level startup: devices prepared (exit 1 when any fails),
    then iface_set_static_ip eth0 192.168.0.66/24 (exit 1 on Err), then
    serving begins. -/
def startup (st : Sysfs) (net : NetState) : StartupOutcome :=
  let prep := prepareAll devices st
  if prep.1 then .exitCode 1
  else
    let r := iface_set_static_ip net "eth0" "192.168.0.66" 24
    if r.1.isErr then .exitCode 1
    else .serving

/- ----------------------------------------------------------------
   Helper lemmas.
   ---------------------------------------------------------------- -/

theorem sysfsFind_update (st : Sysfs) (g : Nat) (l : GpioLine)
    (h : (sysfsFind st g).isSome = true) :
    sysfsFind (sysfsUpdate st g l) g = some l :=
  alistFind_update st.lines g l h

theorem gpio_set_value_none {st : Sysfs} {g : Nat} {v : Int}
    (h : sysfsFind st g = none) :
    gpio_set_value st g v =
      (.err ("GPIO " ++ toString g ++ " not exported"), st, []) := by
  simp [gpio_set_value, h]

theorem gpio_set_value_some {st : Sysfs} {g : Nat} {v : Int} {line : GpioLine}
    (h : sysfsFind st g = some line) :
    gpio_set_value st g v =
      (.ok (),
       sysfsUpdate st g { line with valueContent := if v == 0 then "0" else "1" },
       [Event.writeValue g v]) := by
  simp [gpio_set_value, h]

theorem gpio_set_value_isErr_iff {st : Sysfs} {g : Nat} {v : Int} :
    (gpio_set_value st g v).1.isErr = true ↔ sysfsFind st g = none := by
  rcases h : sysfsFind st g with _ | line
  · simp [gpio_set_value_none h, Result.isErr]
  · simp [gpio_set_value_some h, Result.isErr]

/-- A failing gpio_set_value changes nothing and writes nothing. -/
theorem gpio_set_value_err_frame {st : Sysfs} {g : Nat} {v : Int}
    (h : (gpio_set_value st g v).1.isErr = true) :
    (gpio_set_value st g v).2.1 = st ∧ (gpio_set_value st g v).2.2 = [] := by
  have hf := gpio_set_value_isErr_iff.mp h
  rw [gpio_set_value_none hf]
  exact ⟨rfl, rfl⟩

/- ----------------------------------------------------------------
   Claim theorems.
   ---------------------------------------------------------------- -/

/-- C1: power_cycle first invokes power_off; when power_off returns a
failure, that original failure (with its state and trace) is returned and
power_on is never invoked — the trace contains no write of the on value
1 — and otherwise the effect is exactly power_off, a fixed one second
suspension, then power_on. -/
theorem c1_power_cycle_spec (d : Device1) (stA stB : Sysfs)
    (hA : (d.power_off stA).1.isErr = true)
    (hB : (d.power_off stB).1.isErr = false) :
    (d.power_cycle stA = d.power_off stA ∧
      ∀ g v, Event.writeValue g v ∈ (d.power_cycle stA).2.2 → v ≠ 1) ∧
    d.power_cycle stB =
      ((d.power_on (d.power_off stB).2.1).1,
       (d.power_on (d.power_off stB).2.1).2.1,
       (d.power_off stB).2.2 ++ [Event.sleep 1] ++
         (d.power_on (d.power_off stB).2.1).2.2) := by
  have hfA : sysfsFind stA d.power_gpio = none := gpio_set_value_isErr_iff.mp hA
  have hoffA : d.power_off stA =
      (.err ("GPIO " ++ toString d.power_gpio ++ " not exported"), stA, []) :=
    gpio_set_value_none hfA
  refine ⟨⟨?_, ?_⟩, ?_⟩
  · show (match d.power_off stA with
      | (.err e, st1, t1) => (Result.err e, st1, t1)
      | (.ok _, st1, t1) =>
        match d.power_on st1 with
        | (r, st2, t2) => (r, st2, t1 ++ [Event.sleep 1] ++ t2)) = d.power_off stA
    rw [hoffA]
  · intro g v hmem
    exfalso
    have : (d.power_cycle stA).2.2 = [] := by
      show (match d.power_off stA with
        | (.err e, st1, t1) => (Result.err e, st1, t1)
        | (.ok _, st1, t1) =>
          match d.power_on st1 with
          | (r, st2, t2) => (r, st2, t1 ++ [Event.sleep 1] ++ t2)).2.2 = []
      rw [hoffA]
    rw [this] at hmem
    simp at hmem
  · rcases hfB : sysfsFind stB d.power_gpio with _ | line
    · have htrue : (d.power_off stB).1.isErr = true :=
        gpio_set_value_isErr_iff.mpr hfB
      rw [htrue] at hB
      exact absurd hB (by simp)
    · have hoffB := gpio_set_value_some (v := (0 : Int)) hfB
      show (match d.power_off stB with
        | (.err e, st1, t1) => (Result.err e, st1, t1)
        | (.ok _, st1, t1) =>
          match d.power_on st1 with
          | (r, st2, t2) => (r, st2, t1 ++ [Event.sleep 1] ++ t2)) = _
      rw [show d.power_off stB = gpio_set_value stB d.power_gpio 0 from rfl,
        hoffB]

def stA0 : Sysfs := { exportFilePresent := true, lines := [] }

def stB0 : Sysfs :=
  { exportFilePresent := true
    lines := [(539, { direction := "out", activeLow := true, valueContent := "1" }),
              (529, { direction := "out", activeLow := true, valueContent := "1" })] }

theorem c1_power_cycle_spec_witness :
    dev1.power_cycle stB0 =
      ((dev1.power_on (dev1.power_off stB0).2.1).1,
       (dev1.power_on (dev1.power_off stB0).2.1).2.1,
       (dev1.power_off stB0).2.2 ++ [Event.sleep 1] ++
         (dev1.power_on (dev1.power_off stB0).2.1).2.2) :=
  (c1_power_cycle_spec dev1 stA0 stB0 (by decide) (by decide)).2

/-- C2: evaluation at the failing input.  For line 539, not yet exported,
with the export control file present, gpio_prepare_output writes the full
sysfs path string (not the line number) to the export control file; that
string does not parse as a line number, so the kernel rejects the write,
the per-line control directory never appears, and the call fails with the
could-not-be-exported error, leaving the line unexported — the claimed
export by writing the line number never happens. -/
theorem c2_export_write_is_path_not_number :
    gpio_prepare_output stA0 539 true "Power" =
      (.err "Power gpio 539 could not be exported.", stA0,
        ["/sys/class/gpio/gpio539\n"]) ∧
    parseNatChars (stripData "/sys/class/gpio/gpio539\n") = none ∧
    "/sys/class/gpio/gpio539\n" ≠ "539\n" ∧
    sysfsFind stA0 539 = none := by
  refine ⟨by decide, by decide, by decide, rfl⟩

/-- The observable event trace of the C9 scenario: power-on, then
power-off, then power-cycle, threading the sysfs state. -/
def c9_trace (st : Sysfs) : List Event :=
  match dev1.power_on st with
  | (_, st1, t1) =>
    match dev1.power_off st1 with
    | (_, st2, t2) =>
      match dev1.power_cycle st2 with
      | (_, _, t3) => t1 ++ t2 ++ t3

/-- A sysfs state where the two lines of device1 (power 539, reset 529)
are exported, with arbitrary per-line state. -/
def c9_state (pl rl : GpioLine) : Sysfs :=
  { exportFilePresent := true, lines := [(539, pl), (529, rl)] }

/-- C9: on device1 (power GPIO 539 inverted, reset GPIO 529 inverted),
power-on then power-off then power-cycle writes the value sequence 1, 0,
then 0, one second suspension, 1 to the power line, and no event of the
whole run touches the reset line 529. -/
theorem c9_power_sequence (pl rl : GpioLine) :
    c9_trace (c9_state pl rl) =
      [Event.writeValue 539 1, Event.writeValue 539 0, Event.writeValue 539 0,
       Event.sleep 1, Event.writeValue 539 1] ∧
    ∀ e ∈ c9_trace (c9_state pl rl), e.gpioOf ≠ some 529 := by
  have h : c9_trace (c9_state pl rl) =
      [Event.writeValue 539 1, Event.writeValue 539 0, Event.writeValue 539 0,
       Event.sleep 1, Event.writeValue 539 1] := by
    simp [c9_trace, c9_state, dev1, Device1.power_on, Device1.power_off,
      Device1.power_cycle, gpio_set_value, sysfsFind, sysfsUpdate,
      alistFind, alistUpdate]
  refine ⟨h, ?_⟩
  rw [h]
  intro e he
  simp only [List.mem_cons, List.not_mem_nil, or_false] at he
  rcases he with rfl | rfl | rfl | rfl | rfl <;> simp [Event.gpioOf]

/-- C3: reset_pulse (modelled from the spec on top of the source reset
operations) asserts reset, suspends for the duration, then releases; when
the assert fails, the failure is returned unchanged and nothing is written
(in particular the release is skipped); on success the trace is exactly
assert, suspension, release and the reset line reads logical 0 afterwards
whatever its polarity; and a failing release leaves the line state — hence
the asserted value — untouched. -/
theorem c3_reset_pulse_spec (d : Device1) (stA stB : Sysfs) (dur : Nat)
    (lB : GpioLine)
    (hA : (d.reset_button_push stA).1.isErr = true)
    (hB : sysfsFind stB d.reset_gpio = some lB) :
    (d.reset_pulse stA dur = d.reset_button_push stA ∧
      (d.reset_pulse stA dur).2.2 = []) ∧
    (∃ st2, d.reset_pulse stB dur =
        (.ok (), st2,
         [Event.writeValue d.reset_gpio 1, Event.sleep dur,
          Event.writeValue d.reset_gpio 0]) ∧
        gpio_get_value st2 d.reset_gpio = .ok 0) ∧
    (∀ st3, (gpio_set_value st3 d.reset_gpio 0).1.isErr = true →
        (gpio_set_value st3 d.reset_gpio 0).2.1 = st3) := by
  have hfA : sysfsFind stA d.reset_gpio = none := gpio_set_value_isErr_iff.mp hA
  have hpushA : d.reset_button_push stA =
      (.err ("GPIO " ++ toString d.reset_gpio ++ " not exported"), stA, []) :=
    gpio_set_value_none hfA
  refine ⟨⟨?_, ?_⟩, ?_, ?_⟩
  · simp [Device1.reset_pulse, hpushA]
  · simp [Device1.reset_pulse, hpushA]
  · have hSome : (sysfsFind stB d.reset_gpio).isSome = true := by
      rw [hB]; rfl
    have hpush : gpio_set_value stB d.reset_gpio 1 =
        (.ok (), sysfsUpdate stB d.reset_gpio { lB with valueContent := "1" },
         [Event.writeValue d.reset_gpio 1]) := by
      rw [gpio_set_value_some hB]
      rfl
    have hf1 : sysfsFind
        (sysfsUpdate stB d.reset_gpio { lB with valueContent := "1" })
        d.reset_gpio = some { lB with valueContent := "1" } :=
      sysfsFind_update stB d.reset_gpio { lB with valueContent := "1" } hSome
    have hSome1 : (sysfsFind
        (sysfsUpdate stB d.reset_gpio { lB with valueContent := "1" })
        d.reset_gpio).isSome = true := by
      rw [hf1]; rfl
    have hrel : gpio_set_value
        (sysfsUpdate stB d.reset_gpio { lB with valueContent := "1" })
        d.reset_gpio 0 =
        (.ok (), sysfsUpdate
          (sysfsUpdate stB d.reset_gpio { lB with valueContent := "1" })
          d.reset_gpio { lB with valueContent := "0" },
         [Event.writeValue d.reset_gpio 0]) := by
      rw [gpio_set_value_some hf1]
      rfl
    have hf2 : sysfsFind
        (sysfsUpdate
          (sysfsUpdate stB d.reset_gpio { lB with valueContent := "1" })
          d.reset_gpio { lB with valueContent := "0" })
        d.reset_gpio = some { lB with valueContent := "0" } :=
      sysfsFind_update _ d.reset_gpio { lB with valueContent := "0" } hSome1
    refine ⟨sysfsUpdate
      (sysfsUpdate stB d.reset_gpio { lB with valueContent := "1" })
      d.reset_gpio { lB with valueContent := "0" }, ?_, ?_⟩
    · simp only [Device1.reset_pulse,
        show d.reset_button_push stB = gpio_set_value stB d.reset_gpio 1
          from rfl, hpush,
        show ∀ s, d.reset_button_release s = gpio_set_value s d.reset_gpio 0
          from fun _ => rfl, hrel]
      rfl
    · have hz : pyInt "0" = some 0 := by decide
      simp [gpio_get_value, hf2, hz]
  · intro st3 h3
    exact (gpio_set_value_err_frame h3).1

theorem c3_reset_pulse_spec_witness :
    ∃ st2, dev1.reset_pulse stB0 3 =
      (.ok (), st2,
       [Event.writeValue 529 1, Event.sleep 3, Event.writeValue 529 0]) ∧
      gpio_get_value st2 529 = .ok 0 :=
  (c3_reset_pulse_spec dev1 stA0 stB0 3
    { direction := "out", activeLow := true, valueContent := "1" }
    (by decide) (by decide)).2.1

/- C6 support: a successful prepare leaves the line reading the polarity
   flag, proved first for the post-export phase, then for the whole
   operation. -/

theorem gpio_get_value_update2 (st1 : Sysfs) (g : Nat) (l1 l2 : GpioLine)
    (hSome : (sysfsFind st1 g).isSome = true) :
    gpio_get_value (sysfsUpdate (sysfsUpdate st1 g l1) g l2) g =
      (match pyInt l2.valueContent with
       | some n => PyOutcome.ok n
       | none => PyOutcome.raised
           ("ValueError: invalid literal for int: " ++ l2.valueContent)) := by
  have h1 : (sysfsFind (sysfsUpdate st1 g l1) g).isSome = true := by
    rw [sysfsFind_update st1 g l1 hSome]; rfl
  have h2 : sysfsFind (sysfsUpdate (sysfsUpdate st1 g l1) g l2) g = some l2 :=
    sysfsFind_update _ _ _ h1
  simp [gpio_get_value, h2]

theorem after_export_ok_value (st1 : Sysfs) (ws : List String) (g : Nat)
    (a : Bool) (lbl : String)
    (h : (gpio_prepare_after_export st1 ws g a lbl).1 = .ok ()) :
    gpio_get_value (gpio_prepare_after_export st1 ws g a lbl).2.1 g =
      .ok (if a then 1 else 0) := by
  have hso : pyStrip "out" = "out" := by decide
  have hs0 : pyStrip "0" = "0" := by decide
  have hs1 : pyStrip "1" = "1" := by decide
  have hz : pyInt "0" = some 0 := by decide
  have ho : pyInt "1" = some 1 := by decide
  rcases hf : sysfsFind st1 g with _ | line0
  · simp [gpio_prepare_after_export, hf] at h
  · have hSome : (sysfsFind st1 g).isSome = true := by rw [hf]; rfl
    cases a <;> cases hal : line0.activeLow <;>
      simp [gpio_prepare_after_export, hf, hal, hso, hs0, hs1,
        gpio_get_value_update2, hSome, hz, ho]

theorem prepare_ok_value (st : Sysfs) (g : Nat) (a : Bool) (lbl : String)
    (h : (gpio_prepare_output st g a lbl).1 = .ok ()) :
    gpio_get_value (gpio_prepare_output st g a lbl).2.1 g =
      .ok (if a then 1 else 0) := by
  by_cases hef : st.exportFilePresent = false
  · simp [gpio_prepare_output, hef] at h
  · have hrw : gpio_prepare_output st g a lbl =
        gpio_prepare_after_export
          (if (sysfsFind st g).isSome then st
           else sysfsExportWrite st
             ("/sys/class/gpio/gpio" ++ toString g ++ "\n"))
          (if (sysfsFind st g).isSome then []
           else ["/sys/class/gpio/gpio" ++ toString g ++ "\n"])
          g a lbl := by
      simp [gpio_prepare_output, hef]
    rw [hrw] at h ⊢
    exact after_export_ok_value _ _ g a lbl h

/-- C6: for a line not exported, get_value and set_value both fail with the
resource-unavailable not-exported error, and after prepare_output succeeds
for a line with a given polarity, get_value on that line returns exactly 1
when the polarity flag is set and 0 otherwise. -/
theorem c6_gpio_line_contract (st st2 : Sysfs) (L L2 : Nat) (v : Int)
    (a : Bool) (lbl : String)
    (h1 : sysfsFind st L = none)
    (h2 : (gpio_prepare_output st2 L2 a lbl).1 = .ok ()) :
    gpio_get_value st L = .err ("GPIO " ++ toString L ++ " not exported") ∧
    gpio_set_value st L v =
      (.err ("GPIO " ++ toString L ++ " not exported"), st, []) ∧
    gpio_get_value (gpio_prepare_output st2 L2 a lbl).2.1 L2 =
      .ok (if a then 1 else 0) := by
  refine ⟨by simp [gpio_get_value, h1], gpio_set_value_none h1, ?_⟩
  exact prepare_ok_value st2 L2 a lbl h2

def st7in : Sysfs :=
  { exportFilePresent := true
    lines := [(7, { direction := "in", activeLow := false, valueContent := "0" })] }

theorem c6_gpio_line_contract_witness :
    gpio_get_value stA0 5 = .err ("GPIO " ++ toString 5 ++ " not exported") ∧
    gpio_set_value stA0 5 1 =
      (.err ("GPIO " ++ toString 5 ++ " not exported"), stA0, []) ∧
    gpio_get_value (gpio_prepare_output st7in 7 true "Power").2.1 7 =
      .ok (if true then 1 else 0) :=
  c6_gpio_line_contract stA0 st7in 5 7 1 true "Power" rfl (by decide)

def st7 : Sysfs :=
  { exportFilePresent := true
    lines := [(7, { direction := "out", activeLow := false, valueContent := "abc" })] }

/-- C7 counterexample: line 7 is exported and its value file content "abc"
is not an integer, yet gpio_get_value does not return a failure outcome:
int() raises an uncaught ValueError, modelled as the raised outcome, so
the claim that a failure outcome is returned is false on the code. -/
theorem c7_counterexample_nonint_raises :
    (sysfsFind st7 7).isSome = true ∧
    pyInt "abc" = none ∧
    gpio_get_value st7 7 = .raised "ValueError: invalid literal for int: abc" ∧
    (gpio_get_value st7 7).isErrOutcome = false := by
  exact ⟨rfl, by decide, by decide, by decide⟩

/-- C7 amended: for an unexported line get_value returns the not-exported
failure; for an exported line whose value file content is not an integer,
get_value raises an uncaught ValueError (a propagated exception) instead
of returning a failure outcome. -/
theorem c7_amended_get_value (st st2 : Sysfs) (L L2 : Nat) (l2 : GpioLine)
    (h1 : sysfsFind st L = none)
    (h2 : sysfsFind st2 L2 = some l2)
    (h3 : pyInt l2.valueContent = none) :
    gpio_get_value st L = .err ("GPIO " ++ toString L ++ " not exported") ∧
    gpio_get_value st2 L2 =
      .raised ("ValueError: invalid literal for int: " ++ l2.valueContent) := by
  constructor
  · simp [gpio_get_value, h1]
  · simp [gpio_get_value, h2, h3]

theorem c7_amended_get_value_witness :
    gpio_get_value stA0 5 = .err "GPIO 5 not exported" ∧
    gpio_get_value st7 7 =
      .raised "ValueError: invalid literal for int: abc" := by
  have h := c7_amended_get_value stA0 st7 5 7
    { direction := "out", activeLow := false, valueContent := "abc" }
    rfl (by decide) (by decide)
  exact h

/- C4 support. -/

theorem netFind_update (st : NetState) (i : String) (v : List String)
    (h : (netFind st i).isSome = true) :
    netFind (netUpdate st i v) i = some v :=
  alistFind_update st.ifaces i v h

/-- A call to iface_set_static_ip on a present interface with root rights
succeeds, and the resulting state is flush followed by a single add. -/
theorem set_static_ip_ok (st : NetState) (i a : String)
    (hif : (netFind st i).isSome = true) (hroot : st.root = true) :
    iface_set_static_ip st i a 24 =
      (.ok (), netUpdate (netUpdate st i []) i [a]) := by
  rcases hf : netFind st i with _ | addrs
  · rw [hf] at hif; simp at hif
  · have h1 : netFind (netUpdate st i []) i = some [] :=
      netFind_update st i [] hif
    have hif1 : (netFind (netUpdate st i []) i).isSome = true := by
      rw [h1]; rfl
    have h2 : netFind (netUpdate (netUpdate st i []) i [a]) i = some [a] :=
      netFind_update _ i [a] hif1
    simp [iface_set_static_ip, hf, hroot, h1, h2]

/-- C4: set_static_address flushes all existing addresses and adds the
requested one, verifying both by re-reads; a successful call leaves
exactly the requested address, and two calls in a row with different
addresses leave exactly one address, the second, on the interface. -/
theorem c4_set_static_address_twice (st : NetState) (i a1 a2 : String)
    (hif : (netFind st i).isSome = true) (hroot : st.root = true)
    (hne : a1 ≠ a2) :
    (iface_set_static_ip st i a1 24).1 = .ok () ∧
    netFind (iface_set_static_ip st i a1 24).2 i = some [a1] ∧
    (iface_set_static_ip (iface_set_static_ip st i a1 24).2 i a2 24).1 =
      .ok () ∧
    netFind (iface_set_static_ip (iface_set_static_ip st i a1 24).2 i a2 24).2
      i = some [a2] := by
  have h1 := set_static_ip_ok st i a1 hif hroot
  have hif0 : (netFind (netUpdate st i []) i).isSome = true := by
    rw [netFind_update st i [] hif]; rfl
  have hfind1 : netFind (netUpdate (netUpdate st i []) i [a1]) i = some [a1] :=
    netFind_update _ i [a1] hif0
  have hif1 : (netFind (netUpdate (netUpdate st i []) i [a1]) i).isSome =
      true := by
    rw [hfind1]; rfl
  have hroot1 : (netUpdate (netUpdate st i []) i [a1]).root = true := hroot
  have h2 := set_static_ip_ok (netUpdate (netUpdate st i []) i [a1]) i a2
    hif1 hroot1
  have hif2 : (netFind (netUpdate (netUpdate (netUpdate st i []) i [a1]) i [])
      i).isSome = true := by
    rw [netFind_update _ i [] hif1]; rfl
  have hfind2 : netFind
      (netUpdate (netUpdate (netUpdate (netUpdate st i []) i [a1]) i []) i [a2])
      i = some [a2] :=
    netFind_update _ i [a2] hif2
  refine ⟨by simp [h1], by simp [h1]; exact hfind1, ?_, ?_⟩
  · simp [h1, h2]
  · simp [h1, h2]; exact hfind2

def net0 : NetState :=
  { root := true, ifaces := [("eth0", ["10.0.0.1"])] }

theorem c4_set_static_address_twice_witness :
    (iface_set_static_ip net0 "eth0" "192.168.0.1" 24).1 = .ok () ∧
    netFind (iface_set_static_ip net0 "eth0" "192.168.0.1" 24).2 "eth0" =
      some ["192.168.0.1"] ∧
    (iface_set_static_ip (iface_set_static_ip net0 "eth0" "192.168.0.1" 24).2
      "eth0" "192.168.0.2" 24).1 = .ok () ∧
    netFind (iface_set_static_ip
      (iface_set_static_ip net0 "eth0" "192.168.0.1" 24).2
      "eth0" "192.168.0.2" 24).2 "eth0" = some ["192.168.0.2"] :=
  c4_set_static_address_twice net0 "eth0" "192.168.0.1" "192.168.0.2"
    (by decide) rfl (by decide)

def envNoBin : ExecEnv :=
  { whichSer2net := none, usrSbinSer2netExists := false,
    exitsWithin500ms := false }

/-- C5: evaluation at the failing input.  When the ser2net binary cannot be
found, ser2net_cmd returns a failure, but ser2net_start raises on it
instead of returning it; moreover ser2net_start never returns an err
outcome on any input (its early-exit branch also raises while formatting
its message), contradicting the claim that the start operation returns a
failure and never throws.  The dnsmasq start, in contrast, does return an
err on early exit. -/
theorem c5_ser2net_start_raises :
    ser2net_cmd envNoBin "/dev/ttyUSB0" 115200 4000 =
      .err "ser2net binary not found" ∧
    ser2net_start envNoBin "/dev/ttyUSB0" 115200 4000 =
      .raised "TypeError: exceptions must derive from BaseException" ∧
    (ser2net_start envNoBin "/dev/ttyUSB0" 115200 4000).isErrOutcome =
      false ∧
    (∀ env : ExecEnv, ∀ tty : String, ∀ speed port : Nat,
      (ser2net_start env tty speed port).isErrOutcome = false) ∧
    (∀ t i : String,
      dnsmasq_tftp_start { tmpDirName := t, exitsWithin500ms := true } i =
        .err ("dnsmasq for " ++ i ++ " exited immediately")) := by
  refine ⟨by decide, by decide, by decide, ?_, ?_⟩
  · intro env tty speed port
    rcases hc : ser2net_cmd env tty speed port with cmdv | e
    · by_cases he : env.exitsWithin500ms = true <;>
        simp [ser2net_start, hc, he, PyOutcome.isErrOutcome]
    · simp [ser2net_start, hc, PyOutcome.isErrOutcome]
  · intro t i
    simp [dnsmasq_tftp_start]

/-- C8: when any registered device fails to prepare, or the boot interface
cannot be configured, startup exits with code 1 and never reaches serving. -/
theorem c8_startup_failures_fatal (st : Sysfs) (net : NetState)
    (h : (dev1.prepare st).1.isErr = true ∨
      (iface_set_static_ip net "eth0" "192.168.0.66" 24).1.isErr = true) :
    startup st net = .exitCode 1 ∧ startup st net ≠ .serving := by
  have hstart : startup st net =
      (if ((dev1.prepare st).1.isErr || false) = true then
        StartupOutcome.exitCode 1
       else if (iface_set_static_ip net "eth0" "192.168.0.66" 24).1.isErr then
        StartupOutcome.exitCode 1
       else StartupOutcome.serving) := by
    simp [startup, prepareAll, devices]
  rcases h with h | h
  · simp [hstart, h]
  · by_cases hp : (dev1.prepare st).1.isErr = true <;> simp [hstart, hp, h]

def stNoExport : Sysfs := { exportFilePresent := false, lines := [] }

theorem c8_startup_failures_fatal_witness :
    startup stNoExport net0 = .exitCode 1 ∧
    startup stNoExport net0 ≠ .serving :=
  c8_startup_failures_fatal stNoExport net0 (Or.inl (by decide))

/- C10 support. -/

theorem alistFind_append_self {κ β : Type} [BEq κ] [LawfulBEq κ]
    (xs : List (κ × β)) (k : κ) (v : β) (h : alistFind k xs = none) :
    alistFind k (xs ++ [(k, v)]) = some v := by
  induction xs with
  | nil => simp [alistFind]
  | cons p ps ih =>
    by_cases hk : p.1 == k
    · simp [alistFind, hk] at h
    · simp only [alistFind, hk, if_false] at h
      simpa [alistFind, hk] using ih h

/-- The staging write always leaves the content under the filename,
whatever was there before. -/
theorem fsWrite_find (dir : StagingDir) (f : String) (c : List Nat) :
    alistFind f (fsWrite dir f c) = some c := by
  unfold fsWrite
  by_cases h : (alistFind f dir).isSome = true
  · simp only [h, if_true]
    exact alistFind_update dir f c h
  · have hn : alistFind f dir = none := by
      rcases hx : alistFind f dir with _ | w
      · rfl
      · rw [hx] at h; simp at h
    simp only [h, if_false]
    exact alistFind_append_self dir f c hn

/-- C10: on the firmware-staging route for a known device, a failed
download yields a 500 failure response and leaves the staging directory
unchanged; a successful download writes the received bytes under the
fixed tftp filename of the device — overwriting any prior content — and
responds ok. -/
theorem c10_device_flash_staging (reg : List (String × Device1))
    (name : String) (d : Device1) (dir : StagingDir)
    (hreg : alistFind name reg = some d) :
    (∀ e, device_flash reg name (.err e) dir = (.httpError 500 e, dir)) ∧
    (∀ content, device_flash reg name (.ok content) dir =
        (.ok "ok", fsWrite dir d.tftp_filename content) ∧
      alistFind d.tftp_filename (fsWrite dir d.tftp_filename content) =
        some content) := by
  constructor
  · intro e
    simp [device_flash, hreg]
  · intro content
    exact ⟨by simp [device_flash, hreg, tftp_provide_file],
      fsWrite_find dir _ content⟩

theorem c10_device_flash_staging_witness :
    device_flash devices "device1" (.err "connection refused") [] =
      (.httpError 500 "connection refused", []) ∧
    device_flash devices "device1" (.ok [1, 2, 3]) [] =
      (.ok "ok", fsWrite [] dev1.tftp_filename [1, 2, 3]) ∧
    alistFind dev1.tftp_filename (fsWrite [] dev1.tftp_filename [1, 2, 3]) =
      some [1, 2, 3] := by
  have h := c10_device_flash_staging devices "device1" dev1 [] (by decide)
  exact ⟨h.1 "connection refused", (h.2 [1, 2, 3]).1, (h.2 [1, 2, 3]).2⟩

end RTF
